import Mathlib

/-!
Shallow embedding of the BancoDemoApp backend transaction engine
(`core/serializers.py` `TransaccionSerializer`, `core/views.py`
`CancelarTransaccionView`, and the account-number generators), together with
theorems settling the specification claims.

Monetary values are modelled as integers in centavos: the source stores
`DecimalField(max_digits=10, decimal_places=2)` amounts, whose arithmetic and
comparisons are exact and coincide with integer arithmetic on centavos.

Every exception the modelled code raises is a DRF `serializers.ValidationError`
carrying a message; errors are modelled as a `RaisedError` record holding the
exception class name and the message, so that statements about which kind of
error is raised remain faithful to the source.
-/

namespace BancoDemo

/-- User record (`core/models.py` `Usuario`): primary key, name, unique email
and role string (`"Cliente"` or `"Operador"`). -/
structure Usuario where
  id : Nat
  nombre : String
  correo_electronico : String
  tipo : String
  deriving DecidableEq, Repr

/-- Account record (`core/models.py` `Cuenta`). The `id_usuario` foreign key
always resolves in the database, so the owner is embedded directly. `saldo`
is the balance in centavos. -/
structure Cuenta where
  id_cuenta : Nat
  numero_cuenta : String
  tipo : String
  saldo : Int
  estado : String
  owner : Usuario
  deriving DecidableEq, Repr

/-- Transaction record (`core/models.py` `Transaccion`); foreign keys are kept
as primary keys. -/
structure Transaccion where
  id_transaccion : Nat
  tipo : String
  cantidad : Int
  estado : String
  id_cuenta : Nat
  id_operador : Option Nat
  id_cuenta_destino : Option Nat
  deriving DecidableEq, Repr

/-- Audit log record (`core/models.py` `Log`). -/
structure Log where
  id_usuario : Nat
  accion : String
  descripcion : String
  deriving DecidableEq, Repr

/-- A raised Python exception: its class name and message. All exceptions
raised by the modelled code are `serializers.ValidationError`. -/
structure RaisedError where
  className : String
  message : String
  deriving DecidableEq, Repr

/-- Builds the model of `serializers.ValidationError(msg)`. -/
def validationError (msg : String) : RaisedError :=
  ⟨"ValidationError", msg⟩

/-- The database state: the `cuenta`, `transaccion` and `log` tables. Log
entries are kept most-recent-first. -/
structure BankState where
  cuentas : List Cuenta
  transacciones : List Transaccion
  logs : List Log
  deriving DecidableEq, Repr

/-- Model of `Cuenta.objects.get(pk=...)`: `none` models `DoesNotExist`. -/
def findCuentaByPk (s : BankState) (pk : Nat) : Option Cuenta :=
  s.cuentas.find? (fun c => c.id_cuenta == pk)

/-- Model of `Cuenta.objects.get(numero_cuenta=...)`. -/
def findCuentaByNumero (s : BankState) (numero : String) : Option Cuenta :=
  s.cuentas.find? (fun c => c.numero_cuenta == numero)

/-- Model of `cuenta.save()`: writes the in-memory copy `c` over every stored
row with the same primary key. -/
def saveCuenta (s : BankState) (c : Cuenta) : BankState :=
  { s with cuentas := s.cuentas.map (fun x => if x.id_cuenta = c.id_cuenta then c else x) }

/-- Input to `TransaccionSerializer` before validation: the writable fields
of the request. `cantidad` is `Option` because the field may be absent
(`attrs.get('cantidad')` then yields `None`). -/
structure TransaccionRequest where
  tipo : String
  cantidad : Option Int
  id_cuenta_id : Nat
  correo_cliente : Option String
  numero_cuenta_destino : Option String
  deriving DecidableEq, Repr

/-- The `attrs` dictionary after `TransaccionSerializer.validate` succeeds:
`cuenta_origen` is the fetched in-memory copy stored at `attrs['id_cuenta']`,
and `estado` is the entry `_validate_transferencia` writes (absent for
deposits and withdrawals). -/
structure ValidatedData where
  tipo : String
  cantidad : Int
  cuenta_origen : Cuenta
  estado : Option String
  correo_cliente : Option String
  numero_cuenta_destino : Option String
  deriving DecidableEq, Repr

/-- Model of `TransaccionSerializer.validate` (serializers.py lines 250-296),
with its helper checks `_get_cuenta_origen`, `_validate_cantidad`,
`_validate_operador` and `_validate_transferencia` inlined in source order. -/
def validate (s : BankState) (user : Usuario) (attrs : TransaccionRequest) :
    Except RaisedError ValidatedData :=
  match findCuentaByPk s attrs.id_cuenta_id with
  | none => .error (validationError "La cuenta de origen no existe.")
  | some cuenta_origen =>
    match attrs.cantidad with
    | none => .error (validationError "La cantidad debe ser mayor a cero.")
    | some cantidad =>
      if cantidad ≤ 0 then
        .error (validationError "La cantidad debe ser mayor a cero.")
      else if attrs.tipo = "Deposito" ∨ attrs.tipo = "Retiro" then
        if user.tipo ≠ "Operador" then
          .error (validationError "Solo operadores pueden realizar depósitos o retiros.")
        else
          match attrs.correo_cliente with
          | none => .error (validationError "Debe especificar el correo del cliente.")
          | some correo =>
            if cuenta_origen.owner.correo_electronico ≠ correo then
              .error (validationError "La cuenta no pertenece al cliente especificado.")
            else
              .ok ⟨attrs.tipo, cantidad, cuenta_origen, none,
                   attrs.correo_cliente, attrs.numero_cuenta_destino⟩
      else if attrs.tipo = "Transferencia" then
        if user.tipo ≠ "Cliente" then
          .error (validationError "Solo clientes pueden realizar transferencias.")
        else if cuenta_origen.owner.id ≠ user.id then
          .error (validationError "La cuenta no le pertenece al usuario autenticado.")
        else
          .ok ⟨attrs.tipo, cantidad, cuenta_origen,
               some (if cuenta_origen.saldo < cantidad then "Cancelada" else "Pendiente"),
               attrs.correo_cliente, attrs.numero_cuenta_destino⟩
      else
        .error (validationError "Tipo de transacción no válido.")

/-- The `transaccion_data` dictionary built by `_build_base_transaccion_data`
and extended by the processing helpers. -/
structure TransaccionData where
  tipo : String
  cantidad : Int
  id_cuenta : Nat
  estado : String
  id_operador : Option Nat
  id_cuenta_destino : Option Nat
  deriving DecidableEq, Repr

/-- Model of `TransaccionSerializer._procesar_transferencia` (serializers.py
lines 334-349). The destination is fetched as a fresh copy from the store;
source and destination copies are saved in that order, so a self-transfer
saves the credited destination copy last. Returns the updated state, the
updated `transaccion_data` and the resulting status. -/
def procesar_transferencia (s : BankState) (v : ValidatedData) (td : TransaccionData) :
    BankState × TransaccionData × String :=
  match v.numero_cuenta_destino.bind (findCuentaByNumero s) with
  | none => (s, td, "Cancelada")
  | some cuenta_destino =>
    if v.cantidad ≤ v.cuenta_origen.saldo then
      let origen2 := { v.cuenta_origen with saldo := v.cuenta_origen.saldo - v.cantidad }
      let destino2 := { cuenta_destino with saldo := cuenta_destino.saldo + v.cantidad }
      (saveCuenta (saveCuenta s origen2) destino2,
       { td with id_cuenta_destino := some cuenta_destino.id_cuenta },
       "Completada")
    else
      (s, td, "Cancelada")

/-- Model of `TransaccionSerializer._procesar_deposito` (serializers.py
lines 351-355). -/
def procesar_deposito (s : BankState) (v : ValidatedData) (user : Usuario)
    (td : TransaccionData) : BankState × TransaccionData × String :=
  let td2 := { td with id_operador := some user.id }
  let origen2 := { v.cuenta_origen with saldo := v.cuenta_origen.saldo + v.cantidad }
  (saveCuenta s origen2, td2, "Completada")

/-- Model of `TransaccionSerializer._procesar_retiro` (serializers.py
lines 357-363). -/
def procesar_retiro (s : BankState) (v : ValidatedData) (user : Usuario)
    (td : TransaccionData) : BankState × TransaccionData × String :=
  let td2 := { td with id_operador := some user.id }
  if v.cuenta_origen.saldo ≥ v.cantidad then
    let origen2 := { v.cuenta_origen with saldo := v.cuenta_origen.saldo - v.cantidad }
    (saveCuenta s origen2, td2, "Completada")
  else
    (s, td2, "Cancelada")

/-- The description string interpolated by `_crear_log`. -/
def mkDescripcion (tipo : String) (cantidad : Int) (numero : String) (estado : String) :
    String :=
  "Transacción " ++ tipo ++ " de " ++ toString cantidad ++ " en cuenta " ++ numero
    ++ " con estado " ++ estado ++ "."

/-- Model of `TransaccionSerializer._crear_log` (serializers.py lines
365-370): appends exactly one audit log row. -/
def crear_log (s : BankState) (user : Usuario) (tipo : String) (cantidad : Int)
    (cuenta_origen : Cuenta) (estado : String) : BankState :=
  { s with logs :=
      ⟨user.id, tipo, mkDescripcion tipo cantidad cuenta_origen.numero_cuenta estado⟩
        :: s.logs }

/-- The `if`/`elif` dispatch inside `TransaccionSerializer.create`
(serializers.py lines 310-315). -/
def procesarPorTipo (s : BankState) (user : Usuario) (v : ValidatedData)
    (td : TransaccionData) (estado0 : String) : BankState × TransaccionData × String :=
  if v.tipo = "Transferencia" then procesar_transferencia s v td
  else if v.tipo = "Deposito" then procesar_deposito s v user td
  else if v.tipo = "Retiro" then procesar_retiro s v user td
  else (s, td, estado0)

/-- Model of `TransaccionSerializer.create` (serializers.py lines 300-322) on
validated data. New transaction rows get consecutive primary keys. -/
def createTransaccion (s : BankState) (user : Usuario) (v : ValidatedData) :
    BankState × Transaccion :=
  let estado0 := v.estado.getD "Pendiente"
  let td0 : TransaccionData :=
    ⟨v.tipo, v.cantidad, v.cuenta_origen.id_cuenta, estado0, none, none⟩
  let r := procesarPorTipo s user v td0 estado0
  let s1 := r.1
  let td1 := r.2.1
  let estado1 := r.2.2
  let tx : Transaccion :=
    ⟨s1.transacciones.length, td1.tipo, td1.cantidad, estado1, td1.id_cuenta,
     td1.id_operador, td1.id_cuenta_destino⟩
  let s2 := { s1 with transacciones := tx :: s1.transacciones }
  let s3 := crear_log s2 user v.tipo v.cantidad v.cuenta_origen estado1
  (s3, tx)

/-- One full transaction request as the views run it: `is_valid` (which runs
`validate` and raises on failure) followed by `save`/`create`. -/
def procesarTransaccion (s : BankState) (user : Usuario) (req : TransaccionRequest) :
    Except RaisedError (BankState × Transaccion) :=
  match validate s user req with
  | .error e => .error e
  | .ok v => .ok (createTransaccion s user v)

/-- State transition of one request: a raised error rolls back to the prior
state (the atomic block plus DRF error handling leave the store untouched). -/
def stepTx (s : BankState) (p : Usuario × TransaccionRequest) : BankState :=
  match procesarTransaccion s p.1 p.2 with
  | .error _ => s
  | .ok (s2, _) => s2

/-- Runs a sequence of transaction requests. -/
def runTxs (ops : List (Usuario × TransaccionRequest)) (s : BankState) : BankState :=
  ops.foldl stepTx s

/-- Model of `rest_framework.serializers.ModelSerializer.update` as invoked
through `UpdateModelMixin.update` by views.py line 333: every entry of
`validated_data` is written onto the fetched instance and the instance is
saved. `tipo`, `cantidad` and the source-account foreign key are model
columns and persist; `estado` persists exactly when `validate` injected it
(transfer bodies); the declared write-only fields that are not model columns
(`correo_cliente`, `numero_cuenta_destino`) do not persist. -/
def modelSerializerUpdate (s : BankState) (txId : Nat) (v : ValidatedData) :
    BankState :=
  { s with transacciones := s.transacciones.map (fun x =>
      if x.id_transaccion = txId then
        { x with tipo := v.tipo, cantidad := v.cantidad,
                 id_cuenta := v.cuenta_origen.id_cuenta,
                 estado := v.estado.getD x.estado }
      else x) }

/-- Model of `CancelarTransaccionView.update` (views.py lines 319-333),
including line 333's `return super().update(request, *args, **kwargs)`: a
non-`Pendiente` transaction is rejected up front with a `ValidationError`
and nothing changes; a `Pendiente` one has its status saved as `Cancelada`
and a log row appended, after which `super().update` re-runs the
`TransaccionSerializer` validation of the request body and raises on
failure — the saved status change persists, since the view runs outside any
atomic block. `body = none` models a request body rejected by DRF
field-level validation before `validate` runs (required fields missing —
the canonical empty-body PUT, as in the repository's own tests);
`body = some req` is a fully-supplied body, which on passing `validate`
reaches `ModelSerializer.update`. Returns the persisted state together with
the request outcome. -/
def cancelarTransaccion (s : BankState) (user : Usuario) (txId : Nat)
    (body : Option TransaccionRequest) : BankState × Except RaisedError Unit :=
  match s.transacciones.find? (fun t => t.id_transaccion == txId) with
  | none => (s, .error ⟨"Http404", "No Transaccion matches the given query."⟩)
  | some transaccion =>
    if transaccion.estado ≠ "Pendiente" then
      (s, .error (validationError
        "Solo se pueden cancelar transacciones en estado Pendiente."))
    else
      let t2 := { transaccion with estado := "Cancelada" }
      let reemplazar := fun (x : Transaccion) =>
        if x.id_transaccion = transaccion.id_transaccion then t2 else x
      let s1 := { s with transacciones := s.transacciones.map reemplazar }
      let s2 := { s1 with logs :=
        ⟨user.id, "Cancelación de transacción",
         "Se canceló la transacción ID " ++ toString transaccion.id_transaccion⟩
          :: s1.logs }
      match body with
      | none => (s2, .error (validationError "This field is required."))
      | some req =>
        match validate s2 user req with
        | .error e => (s2, .error e)
        | .ok v => (modelSerializerUpdate s2 transaccion.id_transaccion v, .ok ())

/-- Model of `_generate_unique_numero_cuenta` / `generate_unique_numero_cuenta`
with an injected candidate stream `gen` (the source draws from the global
`random`), the set of stored account numbers, the error message of the
particular serializer, the index of the next attempt and the remaining
attempt budget. -/
def genUniqueGo (gen : Nat → String) (store : List String) (msg : String) :
    Nat → Nat → Except RaisedError String
  | _, 0 => .error (validationError msg)
  | i, fuel + 1 =>
    let numero := gen i
    if numero ∈ store then genUniqueGo gen store msg (i + 1) fuel
    else .ok numero

/-- Model of `UsuarioSerializer._generate_unique_numero_cuenta` (serializers.py
lines 68-76): up to 10 attempts, then `ValidationError`. -/
def generate_unique_numero_cuenta (gen : Nat → String) (store : List String) :
    Except RaisedError String :=
  genUniqueGo gen store "No se puede generar un número de cuenta único." 0 10

/-- Model of `CuentaSerializer.generate_unique_numero_cuenta` (serializers.py
lines 164-169): same algorithm, different message. -/
def generate_unique_numero_cuenta_cuenta (gen : Nat → String) (store : List String) :
    Except RaisedError String :=
  genUniqueGo gen store "No se pudo generar un número de cuenta único." 0 10

/-- All stored balances are non-negative. -/
def nonNegSaldos (s : BankState) : Prop :=
  ∀ c ∈ s.cuentas, 0 ≤ c.saldo

instance (s : BankState) : Decidable (nonNegSaldos s) :=
  List.decidableBAll _ s.cuentas

/-- Sum of all stored balances. -/
def sumSaldos (s : BankState) : Int :=
  (s.cuentas.map Cuenta.saldo).sum

/-- The stored primary keys are pairwise distinct (the database guarantee). -/
def idsNodup (s : BankState) : Prop :=
  (s.cuentas.map Cuenta.id_cuenta).Nodup

/-! ### Basic lemmas about the store operations -/

theorem mem_of_findCuentaByPk {s : BankState} {pk : Nat} {c : Cuenta}
    (h : findCuentaByPk s pk = some c) : c ∈ s.cuentas :=
  List.mem_of_find?_eq_some h

theorem findCuentaByPk_id {s : BankState} {pk : Nat} {c : Cuenta}
    (h : findCuentaByPk s pk = some c) : c.id_cuenta = pk := by
  have hp := List.find?_some h
  simpa using hp

theorem mem_of_findCuentaByNumero {s : BankState} {n : String} {c : Cuenta}
    (h : findCuentaByNumero s n = some c) : c ∈ s.cuentas :=
  List.mem_of_find?_eq_some h

theorem mem_saveCuenta {s : BankState} {c c' : Cuenta}
    (h : c' ∈ (saveCuenta s c).cuentas) : c' = c ∨ c' ∈ s.cuentas := by
  simp only [saveCuenta, List.mem_map] at h
  obtain ⟨x, hx, hfx⟩ := h
  by_cases hid : x.id_cuenta = c.id_cuenta
  · left; rw [← hfx, if_pos hid]
  · right; rw [← hfx, if_neg hid]; exact hx

theorem saveCuenta_transacciones (s : BankState) (c : Cuenta) :
    (saveCuenta s c).transacciones = s.transacciones := rfl

theorem saveCuenta_logs (s : BankState) (c : Cuenta) :
    (saveCuenta s c).logs = s.logs := rfl

/-- Substance extracted from a successful validation: the validated record
copies the request fields, the amount is strictly positive, the source
account is the fetched stored row, and the kind is one of the three
transaction kinds. -/
theorem validate_ok_inv {s : BankState} {user : Usuario} {req : TransaccionRequest}
    {v : ValidatedData} (h : validate s user req = .ok v) :
    v.tipo = req.tipo ∧ 0 < v.cantidad ∧ req.cantidad = some v.cantidad ∧
    findCuentaByPk s req.id_cuenta_id = some v.cuenta_origen ∧
    v.numero_cuenta_destino = req.numero_cuenta_destino ∧
    (v.tipo = "Deposito" ∨ v.tipo = "Retiro" ∨ v.tipo = "Transferencia") := by
  unfold validate at h
  split at h
  · exact absurd h (by simp)
  next cuenta_origen hfind =>
    split at h
    · exact absurd h (by simp)
    next cantidad hcant =>
      split at h
      · exact absurd h (by simp)
      next hpos =>
        split at h
        next hdep =>
          split at h
          next => exact absurd h (by simp)
          next hop =>
            split at h
            next => exact absurd h (by simp)
            next correo hcorreo =>
              split at h
              next => exact absurd h (by simp)
              next hmail =>
                injection h with h
                subst h
                refine ⟨rfl, ?_, hcant, hfind, rfl, ?_⟩
                · show (0 : Int) < cantidad
                  omega
                · show req.tipo = "Deposito" ∨ req.tipo = "Retiro" ∨ req.tipo = "Transferencia"
                  tauto
        next hndep =>
          split at h
          next htrans =>
            split at h
            next => exact absurd h (by simp)
            next hcli =>
              split at h
              next => exact absurd h (by simp)
              next howner =>
                injection h with h
                subst h
                refine ⟨rfl, ?_, hcant, hfind, rfl, ?_⟩
                · show (0 : Int) < cantidad
                  omega
                · show req.tipo = "Deposito" ∨ req.tipo = "Retiro" ∨ req.tipo = "Transferencia"
                  exact Or.inr (Or.inr htrans)
          next => exact absurd h (by simp)

theorem procesar_transferencia_logs (s : BankState) (v : ValidatedData)
    (td : TransaccionData) : (procesar_transferencia s v td).1.logs = s.logs := by
  unfold procesar_transferencia
  split
  · rfl
  · split <;> rfl

theorem procesar_retiro_logs (s : BankState) (v : ValidatedData) (user : Usuario)
    (td : TransaccionData) : (procesar_retiro s v user td).1.logs = s.logs := by
  unfold procesar_retiro
  split <;> rfl

theorem procesarPorTipo_logs (s : BankState) (user : Usuario) (v : ValidatedData)
    (td : TransaccionData) (estado0 : String) :
    (procesarPorTipo s user v td estado0).1.logs = s.logs := by
  unfold procesarPorTipo
  split
  · exact procesar_transferencia_logs ..
  · split
    · rfl
    · split
      · exact procesar_retiro_logs ..
      · rfl

theorem createTransaccion_logs (s : BankState) (user : Usuario) (v : ValidatedData) :
    (createTransaccion s user v).1.logs =
      ⟨user.id, v.tipo, mkDescripcion v.tipo v.cantidad v.cuenta_origen.numero_cuenta
        (createTransaccion s user v).2.estado⟩ :: s.logs := by
  unfold createTransaccion crear_log
  exact congrArg (fun l => _ :: l) (procesarPorTipo_logs ..)


/-- Saving a copy with non-negative balance preserves balance
non-negativity. -/
theorem nonNeg_saveCuenta {s : BankState} {c : Cuenta} (hinv : nonNegSaldos s)
    (hc : 0 ≤ c.saldo) : nonNegSaldos (saveCuenta s c) := by
  intro c2 hc2
  rcases mem_saveCuenta hc2 with rfl | hmem
  · exact hc
  · exact hinv c2 hmem

theorem nonNeg_procesar_deposito {s : BankState} {v : ValidatedData}
    {user : Usuario} {td : TransaccionData} (hinv : nonNegSaldos s)
    (horig : 0 ≤ v.cuenta_origen.saldo) (hpos : 0 < v.cantidad) :
    nonNegSaldos (procesar_deposito s v user td).1 := by
  apply nonNeg_saveCuenta hinv
  show 0 ≤ v.cuenta_origen.saldo + v.cantidad
  omega

theorem nonNeg_procesar_retiro {s : BankState} {v : ValidatedData}
    {user : Usuario} {td : TransaccionData} (hinv : nonNegSaldos s) :
    nonNegSaldos (procesar_retiro s v user td).1 := by
  unfold procesar_retiro
  split
  next hge =>
    apply nonNeg_saveCuenta hinv
    show 0 ≤ v.cuenta_origen.saldo - v.cantidad
    omega
  next => exact hinv

theorem nonNeg_procesar_transferencia {s : BankState} {v : ValidatedData}
    {td : TransaccionData} (hinv : nonNegSaldos s) (hpos : 0 < v.cantidad) :
    nonNegSaldos (procesar_transferencia s v td).1 := by
  unfold procesar_transferencia
  split
  next => exact hinv
  next cuenta_destino hb =>
    split
    next hle =>
      obtain ⟨n, -, hfind⟩ := Option.bind_eq_some.mp hb
      have hdest : 0 ≤ cuenta_destino.saldo := hinv _ (mem_of_findCuentaByNumero hfind)
      apply nonNeg_saveCuenta
      · apply nonNeg_saveCuenta hinv
        show 0 ≤ v.cuenta_origen.saldo - v.cantidad
        omega
      · show 0 ≤ cuenta_destino.saldo + v.cantidad
        omega
    next => exact hinv

theorem nonNeg_procesarPorTipo {s : BankState} {user : Usuario}
    {v : ValidatedData} {td : TransaccionData} {estado0 : String}
    (hinv : nonNegSaldos s) (hpos : 0 < v.cantidad)
    (horig : 0 ≤ v.cuenta_origen.saldo) :
    nonNegSaldos (procesarPorTipo s user v td estado0).1 := by
  unfold procesarPorTipo
  split
  · exact nonNeg_procesar_transferencia hinv hpos
  · split
    · exact nonNeg_procesar_deposito hinv horig hpos
    · split
      · exact nonNeg_procesar_retiro hinv
      · exact hinv

theorem createTransaccion_cuentas (s : BankState) (user : Usuario)
    (v : ValidatedData) :
    (createTransaccion s user v).1.cuentas =
      (procesarPorTipo s user v
        ⟨v.tipo, v.cantidad, v.cuenta_origen.id_cuenta, v.estado.getD "Pendiente",
         none, none⟩ (v.estado.getD "Pendiente")).1.cuentas := rfl

theorem nonNeg_createTransaccion {s : BankState} {user : Usuario}
    {v : ValidatedData} (hinv : nonNegSaldos s) (hpos : 0 < v.cantidad)
    (hmem : v.cuenta_origen ∈ s.cuentas) :
    nonNegSaldos (createTransaccion s user v).1 := by
  intro c hc
  rw [createTransaccion_cuentas] at hc
  exact nonNeg_procesarPorTipo hinv hpos (hinv _ hmem) c hc

theorem nonNeg_stepTx (s : BankState) (p : Usuario × TransaccionRequest)
    (hinv : nonNegSaldos s) : nonNegSaldos (stepTx s p) := by
  cases hp : procesarTransaccion s p.1 p.2 with
  | error e => simpa [stepTx, hp] using hinv
  | ok r =>
    obtain ⟨s2, tx⟩ := r
    simp only [stepTx, hp]
    unfold procesarTransaccion at hp
    cases hv : validate s p.1 p.2 with
    | error e => rw [hv] at hp; cases hp
    | ok v =>
      rw [hv] at hp
      injection hp with hp
      obtain ⟨-, hpos, -, hfind, -, -⟩ := validate_ok_inv hv
      have hs2 : s2 = (createTransaccion s p.1 v).1 := by rw [hp]
      rw [hs2]
      exact nonNeg_createTransaccion hinv hpos (mem_of_findCuentaByPk hfind)

/-! ### Claim theorems -/

/-- C2: a Withdrawal request that passes validation but whose amount exceeds
the current balance never raises, never mutates any balance, and creates
exactly one transaction with status `Cancelada`. -/
theorem retiro_insuficiente_no_muta (s : BankState) (user : Usuario)
    (req : TransaccionRequest) (v : ValidatedData)
    (hv : validate s user req = .ok v) (htipo : v.tipo = "Retiro")
    (hgt : v.cuenta_origen.saldo < v.cantidad) :
    ∃ s2 tx, procesarTransaccion s user req = .ok (s2, tx) ∧
      tx.estado = "Cancelada" ∧ s2.cuentas = s.cuentas ∧
      s2.transacciones = tx :: s.transacciones := by
  refine ⟨(createTransaccion s user v).1, (createTransaccion s user v).2, ?_, ?_, ?_, ?_⟩
  · simp [procesarTransaccion, hv]
  all_goals
    simp [createTransaccion, procesarPorTipo, htipo, procesar_retiro, crear_log, not_le.mpr hgt]

/-- Witness for C2 at the spec scenario amounts: balance 100.00, withdrawal of
150.00 by an operator with the matching owner email. -/
theorem retiro_insuficiente_no_muta_witness :
    ∃ s2 tx,
      procesarTransaccion
        ⟨[⟨2, "222-2222222-22", "Ahorros", 10000, "Activa", ⟨7, "Ana", "ana@x.com", "Cliente"⟩⟩],
         [], []⟩
        ⟨8, "Omar", "omar@x.com", "Operador"⟩
        ⟨"Retiro", some 15000, 2, some "ana@x.com", none⟩ = .ok (s2, tx) ∧
      tx.estado = "Cancelada" ∧
      s2.cuentas =
        [⟨2, "222-2222222-22", "Ahorros", 10000, "Activa", ⟨7, "Ana", "ana@x.com", "Cliente"⟩⟩] ∧
      s2.transacciones = tx :: [] :=
  retiro_insuficiente_no_muta _ _ _
    ⟨"Retiro", 15000, ⟨2, "222-2222222-22", "Ahorros", 10000, "Activa",
      ⟨7, "Ana", "ana@x.com", "Cliente"⟩⟩, none, some "ana@x.com", none⟩
    (by rfl) (by decide) (by decide)

/-- C7: every transaction produced by a Deposit, Withdrawal or Transfer call
has status `Completada` or `Cancelada`; status `Pendiente` is never persisted
by these paths. -/
theorem estado_pendiente_inalcanzable (s : BankState) (user : Usuario)
    (req : TransaccionRequest) (s2 : BankState) (tx : Transaccion)
    (h : procesarTransaccion s user req = .ok (s2, tx)) :
    tx.estado = "Completada" ∨ tx.estado = "Cancelada" := by
  unfold procesarTransaccion at h
  cases hv : validate s user req with
  | error e => rw [hv] at h; cases h
  | ok v =>
    rw [hv] at h
    injection h with h
    obtain ⟨-, -, -, -, -, htipo⟩ := validate_ok_inv hv
    have htx : tx = (createTransaccion s user v).2 := by rw [h]
    subst htx
    rcases htipo with ht | ht | ht
    · simp [createTransaccion, procesarPorTipo, procesar_deposito, ht]
    · by_cases hle : v.cuenta_origen.saldo ≥ v.cantidad <;>
        simp [createTransaccion, procesarPorTipo, procesar_retiro, ht, hle]
    · cases hb : v.numero_cuenta_destino.bind (findCuentaByNumero s) with
      | none => simp [createTransaccion, procesarPorTipo, procesar_transferencia, ht, hb]
      | some d =>
        by_cases hle : v.cantidad ≤ v.cuenta_origen.saldo <;>
          simp [createTransaccion, procesarPorTipo, procesar_transferencia, ht, hb, hle]

/-- Witness for C7: the transaction produced by a concrete deposit has a
terminal status. -/
theorem estado_pendiente_inalcanzable_witness :
    (⟨0, "Deposito", 5000, "Completada", 2, some 8, none⟩ : Transaccion).estado
        = "Completada" ∨
      (⟨0, "Deposito", 5000, "Completada", 2, some 8, none⟩ : Transaccion).estado
        = "Cancelada" :=
  estado_pendiente_inalcanzable
    ⟨[⟨2, "222-2222222-22", "Ahorros", 10000, "Activa",
       ⟨7, "Ana", "ana@x.com", "Cliente"⟩⟩], [], []⟩
    ⟨8, "Omar", "omar@x.com", "Operador"⟩
    ⟨"Deposito", some 5000, 2, some "ana@x.com", none⟩
    ⟨[⟨2, "222-2222222-22", "Ahorros", 15000, "Activa",
       ⟨7, "Ana", "ana@x.com", "Cliente"⟩⟩],
     [⟨0, "Deposito", 5000, "Completada", 2, some 8, none⟩],
     [⟨8, "Deposito",
       "Transacción Deposito de 5000 en cuenta 222-2222222-22 con estado Completada."⟩]⟩
    ⟨0, "Deposito", 5000, "Completada", 2, some 8, none⟩ (by rfl)

/-- C9: every Deposit, Withdrawal or Transfer call that creates a transaction
record appends exactly one audit log entry recording the acting user, the
action kind, the amount, the source account and the resulting status. -/
theorem auditoria_un_log (s : BankState) (user : Usuario)
    (req : TransaccionRequest) (v : ValidatedData)
    (hv : validate s user req = .ok v) :
    ∃ s2 tx, procesarTransaccion s user req = .ok (s2, tx) ∧
      s2.logs = ⟨user.id, v.tipo,
        mkDescripcion v.tipo v.cantidad v.cuenta_origen.numero_cuenta tx.estado⟩
          :: s.logs := by
  refine ⟨(createTransaccion s user v).1, (createTransaccion s user v).2, ?_, ?_⟩
  · simp [procesarTransaccion, hv]
  · exact createTransaccion_logs s user v

/-- Witness for C9: a concrete deposit appends exactly one audit entry. -/
theorem auditoria_un_log_witness :
    ∃ s2 tx,
      procesarTransaccion
        ⟨[⟨2, "222-2222222-22", "Ahorros", 10000, "Activa",
           ⟨7, "Ana", "ana@x.com", "Cliente"⟩⟩], [], []⟩
        ⟨8, "Omar", "omar@x.com", "Operador"⟩
        ⟨"Deposito", some 5000, 2, some "ana@x.com", none⟩ = .ok (s2, tx) ∧
      s2.logs = ⟨8, "Deposito",
        mkDescripcion "Deposito" 5000 "222-2222222-22" tx.estado⟩ :: [] :=
  auditoria_un_log _ _ _
    ⟨"Deposito", 5000, ⟨2, "222-2222222-22", "Ahorros", 10000, "Activa",
      ⟨7, "Ana", "ana@x.com", "Cliente"⟩⟩, none, some "ana@x.com", none⟩
    (by rfl)

/-- C10: a Transfer whose destination account number does not resolve to any
stored account does not raise: it records a `Cancelada` transaction and
leaves every stored balance unchanged. -/
theorem transferencia_destino_inexistente (s : BankState) (user : Usuario)
    (req : TransaccionRequest) (v : ValidatedData)
    (hv : validate s user req = .ok v) (htipo : v.tipo = "Transferencia")
    (hdest : v.numero_cuenta_destino.bind (findCuentaByNumero s) = none) :
    ∃ s2 tx, procesarTransaccion s user req = .ok (s2, tx) ∧
      tx.estado = "Cancelada" ∧ s2.cuentas = s.cuentas := by
  refine ⟨(createTransaccion s user v).1, (createTransaccion s user v).2, ?_, ?_, ?_⟩
  · simp [procesarTransaccion, hv]
  all_goals
    simp [createTransaccion, procesarPorTipo, htipo, procesar_transferencia, hdest, crear_log]

/-- Witness for C10: a transfer to an absent account number is recorded as
`Cancelada` with unchanged balances. -/
theorem transferencia_destino_inexistente_witness :
    ∃ s2 tx,
      procesarTransaccion
        ⟨[⟨1, "111-1111111-11", "Ahorros", 10000, "Activa",
           ⟨7, "Ana", "ana@x.com", "Cliente"⟩⟩], [], []⟩
        ⟨7, "Ana", "ana@x.com", "Cliente"⟩
        ⟨"Transferencia", some 5000, 1, none, some "999-9999999-99"⟩ = .ok (s2, tx) ∧
      tx.estado = "Cancelada" ∧
      s2.cuentas =
        [⟨1, "111-1111111-11", "Ahorros", 10000, "Activa",
          ⟨7, "Ana", "ana@x.com", "Cliente"⟩⟩] :=
  transferencia_destino_inexistente _ _ _
    ⟨"Transferencia", 5000, ⟨1, "111-1111111-11", "Ahorros", 10000, "Activa",
      ⟨7, "Ana", "ana@x.com", "Cliente"⟩⟩, some "Pendiente", none,
      some "999-9999999-99"⟩
    (by rfl) (by decide) (by rfl)



/-- Saving twice to the same primary key keeps only the second write. -/
theorem saveCuenta_saveCuenta (s : BankState) (c1 c2 : Cuenta)
    (h : c1.id_cuenta = c2.id_cuenta) :
    saveCuenta (saveCuenta s c1) c2 = saveCuenta s c2 := by
  unfold saveCuenta
  simp only [List.map_map]
  congr 1
  apply List.map_congr_left
  intro x hx
  by_cases hx1 : x.id_cuenta = c1.id_cuenta
  · have hx2 : x.id_cuenta = c2.id_cuenta := hx1.trans h
    simp [Function.comp, hx1, hx2, h]
  · simp [Function.comp, hx1]

/-- Looking up a primary key after a save finds the saved copy when the key
matched, and the old row otherwise. -/
theorem findCuentaByPk_saveCuenta (s : BankState) (c : Cuenta) (pk : Nat) :
    findCuentaByPk (saveCuenta s c) pk
      = (findCuentaByPk s pk).map
          (fun x => if x.id_cuenta = c.id_cuenta then c else x) := by
  unfold findCuentaByPk saveCuenta
  rw [List.find?_map]
  have hpf : ((fun x : Cuenta => x.id_cuenta == pk) ∘
        fun x => if x.id_cuenta = c.id_cuenta then c else x)
      = (fun x : Cuenta => x.id_cuenta == pk) := by
    funext x
    by_cases hx : x.id_cuenta = c.id_cuenta <;> simp [Function.comp, hx]
  rw [hpf]

theorem sum_map_save (l : List Cuenta) (c a : Cuenta)
    (hnodup : (l.map Cuenta.id_cuenta).Nodup)
    (hfind : l.find? (fun x => x.id_cuenta == c.id_cuenta) = some a) :
    ((l.map (fun x => if x.id_cuenta = c.id_cuenta then c else x)).map
        Cuenta.saldo).sum
      = (l.map Cuenta.saldo).sum - a.saldo + c.saldo := by
  induction l with
  | nil => cases hfind
  | cons hd t ih =>
    simp only [List.map_cons, List.nodup_cons] at hnodup
    obtain ⟨hhd, htail⟩ := hnodup
    by_cases hx : hd.id_cuenta = c.id_cuenta
    · have ha : a = hd := by
        rw [List.find?_cons_of_pos _ (by simpa using hx)] at hfind
        exact (Option.some_inj.mp hfind).symm
      subst ha
      have htid : ∀ x ∈ t, ¬ x.id_cuenta = c.id_cuenta := by
        intro x hxt he
        exact hhd (hx ▸ he ▸ List.mem_map_of_mem Cuenta.id_cuenta hxt)
      have ht : t.map (fun x => if x.id_cuenta = c.id_cuenta then c else x) = t := by
        have := List.map_congr_left (l := t)
          (f := fun x => if x.id_cuenta = c.id_cuenta then c else x) (g := id)
          (fun x hxt => by simp [htid x hxt])
        simpa using this
      simp only [List.map_cons, if_pos hx, ht]
      simp only [List.sum_cons]
      ring
    · have hfind2 : t.find? (fun x => x.id_cuenta == c.id_cuenta) = some a := by
        rwa [List.find?_cons_of_neg _ (by simpa using hx)] at hfind
      simp only [List.map_cons, if_neg hx, List.sum_cons, ih htail hfind2]
      ring

/-- Effect of one save on the total of all balances under distinct keys. -/
theorem sumSaldos_saveCuenta {s : BankState} {c a : Cuenta}
    (hnodup : idsNodup s) (hfind : findCuentaByPk s c.id_cuenta = some a) :
    sumSaldos (saveCuenta s c) = sumSaldos s - a.saldo + c.saldo :=
  sum_map_save s.cuentas c a hnodup hfind

theorem findCuentaByPk_congr {s1 s2 : BankState} (h : s1.cuentas = s2.cuentas)
    (pk : Nat) : findCuentaByPk s1 pk = findCuentaByPk s2 pk := by
  unfold findCuentaByPk
  rw [h]

theorem sumSaldos_congr {s1 s2 : BankState} (h : s1.cuentas = s2.cuentas) :
    sumSaldos s1 = sumSaldos s2 := by
  unfold sumSaldos
  rw [h]

/-- C3: from any state in which every stored balance is non-negative, every
sequence of Deposit, Withdrawal and Transfer requests leaves every stored
balance non-negative after each step. -/
theorem saldos_no_negativos (ops : List (Usuario × TransaccionRequest))
    (s : BankState) (hinv : nonNegSaldos s) : nonNegSaldos (runTxs ops s) := by
  induction ops generalizing s with
  | nil => exact hinv
  | cons p t ih =>
    have hstep : runTxs (p :: t) s = runTxs t (stepTx s p) := rfl
    rw [hstep]
    exact ih _ (nonNeg_stepTx s p hinv)

/-- Witness for C3: a concrete mixed sequence of operations (deposit,
self-transfer, over-withdrawal, withdrawal) keeps all balances
non-negative. -/
theorem saldos_no_negativos_witness :
    nonNegSaldos (runTxs
      [(⟨8, "Omar", "omar@x.com", "Operador"⟩,
        ⟨"Deposito", some 20000, 1, some "ana@x.com", none⟩),
       (⟨7, "Ana", "ana@x.com", "Cliente"⟩,
        ⟨"Transferencia", some 5000, 1, none, some "111-1111111-11"⟩),
       (⟨8, "Omar", "omar@x.com", "Operador"⟩,
        ⟨"Retiro", some 999999, 1, some "ana@x.com", none⟩),
       (⟨8, "Omar", "omar@x.com", "Operador"⟩,
        ⟨"Retiro", some 10000, 1, some "ana@x.com", none⟩)]
      ⟨[⟨1, "111-1111111-11", "Ahorros", 10000, "Activa",
         ⟨7, "Ana", "ana@x.com", "Cliente"⟩⟩], [], []⟩) :=
  saldos_no_negativos _ _ (by decide)


/-- C5: a Transfer whose destination account number is the source account's
own number, with positive amount at most the balance, reports `Completada`,
and the account's persisted balance becomes the initial balance PLUS the
amount: the debit is lost because the credited destination copy of the same
row is saved last, so the total of all balances grows by the amount. -/
theorem auto_transferencia_pierde_debito (s : BankState) (user : Usuario)
    (req : TransaccionRequest) (a : Cuenta) (amt : Int)
    (hnodup : idsNodup s)
    (hfindpk : findCuentaByPk s req.id_cuenta_id = some a)
    (hfindnum : findCuentaByNumero s a.numero_cuenta = some a)
    (hdest : req.numero_cuenta_destino = some a.numero_cuenta)
    (htipo : req.tipo = "Transferencia") (hcant : req.cantidad = some amt)
    (hpos : 0 < amt) (hle : amt ≤ a.saldo)
    (hcli : user.tipo = "Cliente") (howner : a.owner.id = user.id) :
    ∃ s2 tx, procesarTransaccion s user req = .ok (s2, tx) ∧
      tx.estado = "Completada" ∧
      findCuentaByPk s2 req.id_cuenta_id = some { a with saldo := a.saldo + amt } ∧
      sumSaldos s2 = sumSaldos s + amt := by
  have hv : validate s user req = .ok ⟨"Transferencia", amt, a, some "Pendiente",
      req.correo_cliente, req.numero_cuenta_destino⟩ := by
    unfold validate
    rw [hfindpk, hcant, htipo, hcli]
    simp [howner, show ¬ amt ≤ 0 from by omega, show ¬ a.saldo < amt from not_lt.mpr hle]
  have hproc : procesar_transferencia s
      ⟨"Transferencia", amt, a, some "Pendiente", req.correo_cliente,
        req.numero_cuenta_destino⟩
      ⟨"Transferencia", amt, a.id_cuenta, "Pendiente", none, none⟩
      = (saveCuenta s { a with saldo := a.saldo + amt },
         ⟨"Transferencia", amt, a.id_cuenta, "Pendiente", none, some a.id_cuenta⟩,
         "Completada") := by
    unfold procesar_transferencia
    have hb : (⟨"Transferencia", amt, a, some "Pendiente", req.correo_cliente,
        req.numero_cuenta_destino⟩ : ValidatedData).numero_cuenta_destino.bind
          (findCuentaByNumero s) = some a := by
      show req.numero_cuenta_destino.bind (findCuentaByNumero s) = some a
      rw [hdest]
      simpa using hfindnum
    rw [hb]
    simp only [hle, if_pos, Prod.mk.injEq]
    exact ⟨saveCuenta_saveCuenta s _ _ rfl, trivial⟩
  set v : ValidatedData := ⟨"Transferencia", amt, a, some "Pendiente",
      req.correo_cliente, req.numero_cuenta_destino⟩ with hvdef
  have hstate : (createTransaccion s user v).1.cuentas
      = (saveCuenta s { a with saldo := a.saldo + amt }).cuentas := by
    rw [createTransaccion_cuentas]
    show (procesarPorTipo s user v
      ⟨"Transferencia", amt, a.id_cuenta, "Pendiente", none, none⟩ "Pendiente").1.cuentas = _
    unfold procesarPorTipo
    rw [if_pos (show v.tipo = "Transferencia" from rfl), hproc]
  have hestado : (createTransaccion s user v).2.estado = "Completada" := by
    show (procesarPorTipo s user v
      ⟨"Transferencia", amt, a.id_cuenta, "Pendiente", none, none⟩ "Pendiente").2.2 = _
    unfold procesarPorTipo
    rw [if_pos (show v.tipo = "Transferencia" from rfl), hproc]
  refine ⟨(createTransaccion s user v).1, (createTransaccion s user v).2, ?_, hestado, ?_, ?_⟩
  · simp [procesarTransaccion, hv]
  · rw [findCuentaByPk_congr hstate, findCuentaByPk_saveCuenta, hfindpk]
    simp
  · rw [sumSaldos_congr hstate]
    have hfind2 : findCuentaByPk s
        ({ a with saldo := a.saldo + amt } : Cuenta).id_cuenta = some a := by
      show findCuentaByPk s a.id_cuenta = some a
      rw [findCuentaByPk_id hfindpk]
      exact hfindpk
    rw [sumSaldos_saveCuenta hnodup hfind2]
    show sumSaldos s - a.saldo + (a.saldo + amt) = sumSaldos s + amt
    ring


/-- Witness for C5: the concrete self-transfer of 50.00 from a balance of
100.00 reports `Completada` and persists a balance of 150.00, growing the
total of all balances by 50.00. -/
theorem auto_transferencia_pierde_debito_witness :
    ∃ s2 tx,
      procesarTransaccion
        ⟨[⟨1, "111-1111111-11", "Ahorros", 10000, "Activa",
           ⟨7, "Ana", "ana@x.com", "Cliente"⟩⟩], [], []⟩
        ⟨7, "Ana", "ana@x.com", "Cliente"⟩
        ⟨"Transferencia", some 5000, 1, none, some "111-1111111-11"⟩ = .ok (s2, tx) ∧
      tx.estado = "Completada" ∧
      findCuentaByPk s2 1 =
        some ⟨1, "111-1111111-11", "Ahorros", 15000, "Activa",
          ⟨7, "Ana", "ana@x.com", "Cliente"⟩⟩ ∧
      sumSaldos s2 =
        sumSaldos ⟨[⟨1, "111-1111111-11", "Ahorros", 10000, "Activa",
          ⟨7, "Ana", "ana@x.com", "Cliente"⟩⟩], [], []⟩ + 5000 :=
  auto_transferencia_pierde_debito _ _ _
    ⟨1, "111-1111111-11", "Ahorros", 10000, "Activa", ⟨7, "Ana", "ana@x.com", "Cliente"⟩⟩
    5000 (by unfold idsNodup; decide) (by rfl) (by rfl) (by rfl) (by rfl) (by rfl)
    (by decide) (by decide) (by rfl) (by rfl)

/-- C1 (code-bug evidence): at the concrete failing input — a self-transfer
of 50.00 with balance 100.00 — the code reports `Completada` but the
persisted balance becomes 150.00 instead of leaving the net balance
unchanged: the debit and credit are not applied consistently, so the
transfer is not atomic in the claimed sense. -/
theorem transferencia_atomicidad_violada :
    (procesarTransaccion
        ⟨[⟨1, "111-1111111-11", "Ahorros", 10000, "Activa",
           ⟨7, "Ana", "ana@x.com", "Cliente"⟩⟩], [], []⟩
        ⟨7, "Ana", "ana@x.com", "Cliente"⟩
        ⟨"Transferencia", some 5000, 1, none, some "111-1111111-11"⟩).map
      (fun p => (p.2.estado, p.1.cuentas.map Cuenta.saldo))
      = .ok ("Completada", [15000]) := by
  rfl


theorem stepTx_of_validate_error {s : BankState} {user : Usuario}
    {req : TransaccionRequest} {e : RaisedError}
    (h : validate s user req = .error e) :
    procesarTransaccion s user req = .error e ∧ stepTx s (user, req) = s := by
  constructor
  · simp [procesarTransaccion, h]
  · simp [stepTx, procesarTransaccion, h]

/-- C4: a transaction request that fails validation — amount absent or
non-positive, wrong actor role for the operation kind, supplied owner email
not matching the source account owner's email, or missing source account —
raises a `ValidationError` and has no partial effect: no balance changes and
no transaction or log record is created. -/
theorem validacion_fallida_sin_efecto (s : BankState) (user : Usuario)
    (req : TransaccionRequest)
    (hfail :
      req.cantidad = none ∨
      (∃ c, req.cantidad = some c ∧ c ≤ 0) ∨
      findCuentaByPk s req.id_cuenta_id = none ∨
      ((req.tipo = "Deposito" ∨ req.tipo = "Retiro") ∧ user.tipo ≠ "Operador") ∨
      (req.tipo = "Transferencia" ∧ user.tipo ≠ "Cliente") ∨
      ((req.tipo = "Deposito" ∨ req.tipo = "Retiro") ∧
        ∀ a, findCuentaByPk s req.id_cuenta_id = some a →
          req.correo_cliente ≠ some a.owner.correo_electronico)) :
    ∃ e, procesarTransaccion s user req = .error e ∧
      e.className = "ValidationError" ∧ stepTx s (user, req) = s := by
  have hverr : ∃ e, validate s user req = .error e ∧ e.className = "ValidationError" := by
    unfold validate
    cases hf : findCuentaByPk s req.id_cuenta_id with
    | none => exact ⟨_, rfl, rfl⟩
    | some a =>
      cases hc : req.cantidad with
      | none => exact ⟨_, rfl, rfl⟩
      | some c =>
        simp only []
        by_cases hcpos : c ≤ 0
        · rw [if_pos hcpos]
          exact ⟨_, rfl, rfl⟩
        · rw [if_neg hcpos]
          rcases hfail with h1 | ⟨c2, h2, h2le⟩ | h3 | ⟨h4, h4u⟩ | ⟨h5, h5u⟩ | ⟨h6, h6m⟩
          · exact absurd hc (by simp [h1])
          · rw [hc] at h2
            have : c = c2 := Option.some_inj.mp h2
            omega
          · rw [h3] at hf
            exact Option.noConfusion hf
          · rw [if_pos h4, if_pos h4u]
            exact ⟨_, rfl, rfl⟩
          · have hnd : ¬ (req.tipo = "Deposito" ∨ req.tipo = "Retiro") := by simp [h5]
            rw [if_neg hnd, if_pos h5, if_pos h5u]
            exact ⟨_, rfl, rfl⟩
          · rw [if_pos h6]
            by_cases hop : user.tipo ≠ "Operador"
            · rw [if_pos hop]
              exact ⟨_, rfl, rfl⟩
            · rw [if_neg hop]
              cases hcor : req.correo_cliente with
              | none => exact ⟨_, rfl, rfl⟩
              | some correo =>
                have hmm : a.owner.correo_electronico ≠ correo := by
                  intro he
                  exact (h6m a hf) (by rw [hcor, he])
                simp only []
                rw [if_pos hmm]
                exact ⟨_, rfl, rfl⟩
  obtain ⟨e, hve, hcls⟩ := hverr
  obtain ⟨hpe, hse⟩ := stepTx_of_validate_error hve
  exact ⟨e, hpe, hcls, hse⟩

/-- Concrete example data for the C4 witness. -/
def anaCliente : Usuario := ⟨7, "Ana", "ana@x.com", "Cliente"⟩

def omarOperador : Usuario := ⟨8, "Omar", "omar@x.com", "Operador"⟩

def cuentaAna : Cuenta := ⟨2, "222-2222222-22", "Ahorros", 10000, "Activa", anaCliente⟩

def bancoEjemplo : BankState := ⟨[cuentaAna], [], []⟩

/-- Witness for C4 at the spec scenario: a Deposit by an Operator whose
supplied owner email does not match the account owner's email raises a
`ValidationError` and changes nothing. -/
theorem validacion_fallida_sin_efecto_witness :
    ∃ e, procesarTransaccion bancoEjemplo omarOperador
        ⟨"Deposito", some 5000, 2, some "otra@x.com", none⟩ = .error e ∧
      e.className = "ValidationError" ∧
      stepTx bancoEjemplo (omarOperador,
        ⟨"Deposito", some 5000, 2, some "otra@x.com", none⟩) = bancoEjemplo :=
  validacion_fallida_sin_efecto _ _ _
    (Or.inr (Or.inr (Or.inr (Or.inr (Or.inr ⟨Or.inl rfl, fun a ha => by
      have hfa : findCuentaByPk bancoEjemplo 2 = some cuentaAna := rfl
      rw [hfa] at ha
      injection ha with ha
      subst ha
      decide⟩)))))


/-- C6 counterexample: cancelling a concrete `Pendiente` transaction with
the canonical empty-body request flips the status to `Cancelada` and appends
the log, but the request then fails the re-validation that views.py line 333
runs after the save, so the operation raises a `ValidationError` instead of
returning successfully — the claim's success clause fails while the status
mutation persists. -/
theorem cancelar_pendiente_no_retorna_exito :
    cancelarTransaccion
        ⟨[], [⟨0, "Transferencia", 100, "Pendiente", 1, none, none⟩], []⟩
        ⟨8, "Omar", "omar@x.com", "Operador"⟩ 0 none
      = (⟨[], [⟨0, "Transferencia", 100, "Cancelada", 1, none, none⟩],
          [⟨8, "Cancelación de transacción", "Se canceló la transacción ID 0"⟩]⟩,
         .error (validationError "This field is required.")) := by
  rfl

/-- C6 (amended): cancellation on a non-`Pendiente` transaction rejects with
an error (raised as a `ValidationError`) for every request body and changes
nothing; on a `Pendiente` transaction the status is saved as `Cancelada` and
a log row appended, but for the canonical empty-body request the subsequent
re-validation of the body (views.py line 333) raises a `ValidationError`
instead of returning success, the persisted status change being kept. -/
theorem cancelar_solo_pendiente (s : BankState) (user : Usuario) (txId : Nat)
    (t : Transaccion) (body : Option TransaccionRequest)
    (hfind : s.transacciones.find? (fun x => x.id_transaccion == txId) = some t) :
    (t.estado = "Pendiente" →
      cancelarTransaccion s user txId none =
        (⟨s.cuentas,
          s.transacciones.map (fun x => if x.id_transaccion = t.id_transaccion
            then { t with estado := "Cancelada" } else x),
          ⟨user.id, "Cancelación de transacción",
           "Se canceló la transacción ID " ++ toString t.id_transaccion⟩ :: s.logs⟩,
         .error (validationError "This field is required."))) ∧
    (t.estado ≠ "Pendiente" →
      cancelarTransaccion s user txId body =
        (s, .error (validationError
          "Solo se pueden cancelar transacciones en estado Pendiente."))) := by
  constructor
  · intro hp
    unfold cancelarTransaccion
    rw [hfind]
    simp only []
    rw [if_neg (fun h => h hp)]
  · intro hne
    unfold cancelarTransaccion
    rw [hfind]
    simp only []
    rw [if_pos hne]

/-- Witness for C6 (amended): cancelling a concrete `Pendiente` transaction
with the empty body persists the cancelled record yet raises, and the
non-`Pendiente` clause holds vacuously. -/
theorem cancelar_solo_pendiente_witness :
    ((⟨0, "Transferencia", 100, "Pendiente", 1, none, none⟩ : Transaccion).estado
        = "Pendiente" →
      cancelarTransaccion
        ⟨[], [⟨0, "Transferencia", 100, "Pendiente", 1, none, none⟩], []⟩
        ⟨8, "Omar", "omar@x.com", "Operador"⟩ 0 none =
        (⟨[],
          [⟨0, "Transferencia", 100, "Pendiente", 1, none, none⟩].map
            (fun x => if x.id_transaccion =
                (⟨0, "Transferencia", 100, "Pendiente", 1, none, none⟩ :
                  Transaccion).id_transaccion
              then { (⟨0, "Transferencia", 100, "Pendiente", 1, none, none⟩ :
                  Transaccion) with estado := "Cancelada" } else x),
          ⟨8, "Cancelación de transacción",
           "Se canceló la transacción ID " ++ toString 0⟩ :: []⟩,
         .error (validationError "This field is required."))) ∧
    ((⟨0, "Transferencia", 100, "Pendiente", 1, none, none⟩ : Transaccion).estado
        ≠ "Pendiente" →
      cancelarTransaccion
        ⟨[], [⟨0, "Transferencia", 100, "Pendiente", 1, none, none⟩], []⟩
        ⟨8, "Omar", "omar@x.com", "Operador"⟩ 0 none =
        (⟨[], [⟨0, "Transferencia", 100, "Pendiente", 1, none, none⟩], []⟩,
         .error (validationError
          "Solo se pueden cancelar transacciones en estado Pendiente."))) :=
  cancelar_solo_pendiente _ _ _
    ⟨0, "Transferencia", 100, "Pendiente", 1, none, none⟩ none (by rfl)

theorem genUniqueGo_ok_inv (gen : Nat → String) (store : List String)
    (msg : String) :
    ∀ (fuel i : Nat) (n : String), genUniqueGo gen store msg i fuel = .ok n →
      n ∉ store ∧ ∃ j, j < fuel ∧ n = gen (i + j) ∧
        ∀ k < j, gen (i + k) ∈ store := by
  intro fuel
  induction fuel with
  | zero => intro i n h; cases h
  | succ m ih =>
    intro i n h
    simp only [genUniqueGo] at h
    by_cases hm : gen i ∈ store
    · rw [if_pos hm] at h
      obtain ⟨hn, j, hj, hjn, hjk⟩ := ih (i + 1) n h
      refine ⟨hn, j + 1, by omega, ?_, ?_⟩
      · rw [hjn]
        exact congrArg gen (by omega)
      · intro k hk
        cases k with
        | zero => simpa using hm
        | succ k2 =>
          have hk2 := hjk k2 (by omega)
          rwa [show i + 1 + k2 = i + (k2 + 1) from by omega] at hk2
    · rw [if_neg hm] at h
      injection h with h
      subst h
      exact ⟨hm, 0, by omega, by simp, by omega⟩

theorem genUniqueGo_error_all (gen : Nat → String) (store : List String)
    (msg : String) :
    ∀ (fuel i : Nat), (∀ j < fuel, gen (i + j) ∈ store) →
      genUniqueGo gen store msg i fuel = .error (validationError msg) := by
  intro fuel
  induction fuel with
  | zero => intro i h; rfl
  | succ m ih =>
    intro i h
    have h0 : gen i ∈ store := by simpa using h 0 (by omega)
    simp only [genUniqueGo]
    rw [if_pos h0]
    apply ih
    intro j hj
    have hj2 := h (j + 1) (by omega)
    rwa [show i + (j + 1) = i + 1 + j from by omega] at hj2

/-- C8 (amended): the generator never returns a number already present in the
store, makes at most 10 attempts, returns the first non-colliding candidate,
and when all 10 attempts collide it fails — raised as a `ValidationError`
(the same exception class as validation failures, not a distinct error
kind). -/
theorem generate_unique_caracterizacion (gen : Nat → String)
    (store : List String) :
    (∀ n, generate_unique_numero_cuenta gen store = .ok n →
        n ∉ store ∧ ∃ i, i < 10 ∧ n = gen i ∧ ∀ j < i, gen j ∈ store) ∧
    ((∀ i < 10, gen i ∈ store) →
      generate_unique_numero_cuenta gen store
        = .error (validationError
            "No se puede generar un número de cuenta único.")) := by
  constructor
  · intro n h
    obtain ⟨hn, j, hj, hjn, hjk⟩ := genUniqueGo_ok_inv gen store _ 10 0 n h
    refine ⟨hn, j, hj, by simpa using hjn, fun k hk => by simpa using hjk k hk⟩
  · intro hall
    exact genUniqueGo_error_all gen store _ 10 0 (fun j hj => by simpa using hall j hj)

/-- Witness for C8 (amended): a candidate stream colliding on its first three
attempts yields the fourth candidate, the first one absent from the store. -/
theorem generate_unique_caracterizacion_witness :
    "300-0000000-00" ∉ ["482-3051967-14"] ∧
    ∃ i, i < 10 ∧
      "300-0000000-00"
        = (fun j => if j < 3 then "482-3051967-14" else "300-0000000-00") i ∧
      ∀ j < i, (fun j => if j < 3 then "482-3051967-14" else "300-0000000-00") j
          ∈ ["482-3051967-14"] :=
  (generate_unique_caracterizacion
      (fun j => if j < 3 then "482-3051967-14" else "300-0000000-00")
      ["482-3051967-14"]).1 "300-0000000-00" (by rfl)

/-- C8 counterexample: with a candidate stream that always collides, the
exhaustion failure is raised as a `ValidationError` — the very class used for
validation failures — so it is not an error distinct from validation
errors. -/
theorem generacion_agotada_es_validation_error :
    generate_unique_numero_cuenta (fun _ => "482-3051967-14") ["482-3051967-14"]
      = .error (validationError "No se puede generar un número de cuenta único.") := by
  rfl

end BancoDemo
